import Mathlib

/-!
Verification development for the token sample-metrics engine and the
category-based label-remediation pipeline of this repository
(`sequence_tagger_model.py`, `pipeline_sample_metrics_token_categories.py`).

The Python code is shallowly embedded: machine numbers become `Nat` / `Int` /
`Rat`; the two transcendental quantities (square roots and logarithms) are
expressed through `Real.sqrt` / `Real.log` on top of the rational bookkeeping;
numpy's IEEE special values on the entropy path are modelled by an explicit
value type.  Dynamic label/metric dictionaries on flair tokens become total
maps from column names to values.
-/

/-- Python's `s.split(sep)` over a list of symbols: empty fragments are kept,
and the result has one more fragment than there are separator occurrences.
(`calculate_mild_f`/`calculate_mild_m` render the 0/1 flag list as a digit
string and split on a single character; each flag renders as exactly one
character, so splitting the flag list itself is the same operation.) -/
def pySplit {α : Type} [DecidableEq α] (sep : α) : List α → List (List α)
  | [] => [[]]
  | x :: xs =>
    match pySplit sep xs with
    | [] => [[]]
    | y :: ys => if x = sep then [] :: y :: ys else (x :: y) :: ys

/-- calculate_mild_f (sequence_tagger_model.py lines 31-39): total length of the
non-empty fragments obtained by splitting the correctness-flag sequence on `0`
(total duration of the "forgetting episodes").  The source's guard
`if len(forgetting_list) != 0 else 0` is subsumed: the sum over an empty list
is 0. -/
def calculate_mild_f (prediction_correct_flags : List Nat) : Nat :=
  let forgetting_list := (pySplit 0 prediction_correct_flags).filter (fun s => !s.isEmpty)
  (forgetting_list.map (fun s => s.length)).sum

/-- calculate_mild_m (sequence_tagger_model.py lines 42-50): the symmetric
computation, splitting on `1` (total duration of the "memorization
episodes"). -/
def calculate_mild_m (prediction_correct_flags : List Nat) : Nat :=
  let memorization_list := (pySplit 1 prediction_correct_flags).filter (fun s => !s.isEmpty)
  (memorization_list.map (fun s => s.length)).sum

/-- Per-token metric history: the fields written by
`SequenceTaggerTokenMetrics._init_metrics_logging` (lines 179-186) and updated
once per epoch by `_calculate_metrics` / `_log_metrics`. -/
structure History where
  last_prediction : Int
  last_confidence_sum : Rat
  last_sq_difference_sum : Rat
  last_correctness_sum : Int
  last_iteration : Nat
  total_epochs : Nat
  hist_prediction : List Nat
  hist_MILD : List Nat
deriving Repr, DecidableEq

/-- Initial history, from `_init_metrics_logging` (lines 179-186): note that
`hist_MILD` is seeded with the one-element list `[0]`, not with the empty
list. -/
def initHistory (tagset_size : Nat) : History :=
  { last_prediction := -1
    last_confidence_sum := 0
    last_sq_difference_sum := 0
    last_correctness_sum := 0
    last_iteration := 0
    total_epochs := 0
    hist_prediction := List.replicate tagset_size 0
    hist_MILD := [0] }

/-- Index of the maximal entry, first occurrence.  The source computes
`np.argsort(softmax_token)[::-1][0]`; when the maximum is unique this is that
same index (numpy's argsort uses an unstable sort, so only tie-breaking can
differ, and the concrete inputs used below have a unique maximum). -/
def argmaxIdx (p : List Rat) : Nat :=
  (p.enum.foldl (fun best x => if best.2 < x.2 then x else best) (0, p.headD 0)).1

/-- The per-token, per-epoch metrics of `_calculate_metrics` that stay inside
the rational/integer fragment.  `BvSB` and `pehist` appear in no claim and are
omitted; `variability` is `Real.sqrt` of `variabilitySq` below; `entropy` and
`cross_entropy` are treated in the numpy-value model further down. -/
structure MetricsQ where
  msp : Rat
  confidence : Rat
  correctness : Rat
  iter_norm : Rat
  mild_m : Nat
  mild_f : Nat
  mild : Int
deriving Repr, DecidableEq

/-- One execution of the per-token body of
`SequenceTaggerTokenMetrics._calculate_metrics` (lines 252-341) on the softmax
probability vector of one token (softmax itself is torch's, outside the
embedding), the observed ("gold") label index, and the token's metric history.
Returns the computable metrics record together with the updated history that
`_log_metrics` writes back to the token (lines 224-234).  An out-of-range
`gold_label` or `prediction` would raise in the source; `getD`/`List.set`
keep the definition total (the trainer always passes in-range indices). -/
def calcMetrics (h : History) (softmax_token : List Rat) (gold_label : Nat) :
    MetricsQ × History :=
  let prediction := argmaxIdx softmax_token
  let total_epochs := h.total_epochs + 1
  let probability_of_predicted_label := softmax_token.getD prediction 0
  let probability_of_true_label := softmax_token.getD gold_label 0
  let confidence_sum := h.last_confidence_sum + probability_of_true_label
  let confidence : Rat := confidence_sum / ((total_epochs : Nat) : Rat)
  let sq_difference_sum :=
    h.last_sq_difference_sum + (probability_of_true_label - confidence) ^ 2
  let correctness_sum : Int :=
    h.last_correctness_sum + (if gold_label = prediction then 1 else 0)
  let correctness : Rat := (correctness_sum : Rat) / ((total_epochs : Nat) : Rat)
  let last_iteration :=
    if (prediction : Int) ≠ h.last_prediction then total_epochs else h.last_iteration
  let iter_norm : Rat := ((last_iteration : Nat) : Rat) / ((total_epochs : Nat) : Rat)
  let count_predictions_history :=
    h.hist_prediction.set prediction (h.hist_prediction.getD prediction 0 + 1)
  let prediction_correct : Nat := if prediction = gold_label then 1 else 0
  let mild_history_new := h.hist_MILD ++ [prediction_correct]
  let mild_m := calculate_mild_m mild_history_new
  let mild_f := calculate_mild_f mild_history_new
  ({ msp := probability_of_predicted_label
     confidence := confidence
     correctness := correctness
     iter_norm := iter_norm
     mild_m := mild_m
     mild_f := mild_f
     mild := (mild_m : Int) - (mild_f : Int) },
   { last_prediction := (prediction : Int)
     last_confidence_sum := confidence_sum
     last_sq_difference_sum := sq_difference_sum
     last_correctness_sum := correctness_sum
     last_iteration := last_iteration
     total_epochs := total_epochs
     hist_prediction := count_predictions_history
     hist_MILD := mild_history_new })

/-- Any number of per-epoch history updates: each step is one epoch's
`(softmax vector, observed label)` input for this token, and the history the
step returns is the one `_log_metrics` stores back on the token. -/
def runUpdates (h : History) (steps : List (List Rat × Nat)) : History :=
  steps.foldl (fun acc s => (calcMetrics acc s.1 s.2).2) h

/-- The argument of the square root in the variability metric (line 288):
the updated squared-difference sum divided by the epoch count including the
current epoch.  `variability = Real.sqrt` of this quantity. -/
def variabilitySq (h : History) (softmax_token : List Rat) (gold_label : Nat) : Rat :=
  (calcMetrics h softmax_token gold_label).2.last_sq_difference_sum /
    ((h.total_epochs + 1 : Nat) : Rat)

/-- Scan state of `EarlyExitSequenceTagger._calculate_layer_metrics`
(sequence_tagger_model.py lines 814-821): prediction depth, the flag that
freezes it, first layer, and the two agreement counters. -/
structure LayerScan where
  pd : Nat
  final_pd : Bool
  fl : Nat
  total_agree_w_last : Nat
  total_agree_w_correct : Nat
deriving Repr, DecidableEq

/-- Loop body of `_calculate_layer_metrics` at layer index `i`
(lines 836-852).  `pred_labels` is the per-layer argmax list;
`pred_labels[-1]` is its last element. -/
def layerScanStep (pred_labels : List Nat) (gold_label : Nat) (st : LayerScan) (i : Nat) :
    LayerScan :=
  let predi := pred_labels.getD i 0
  let last := (pred_labels.getLast?).getD 0
  let fl1 := if predi = gold_label then i else st.fl
  let tac1 :=
    if predi = gold_label then st.total_agree_w_correct + 1 else st.total_agree_w_correct
  if predi = last then
    { pd := if st.final_pd then st.pd else st.pd - 1
      final_pd := st.final_pd
      fl := fl1
      total_agree_w_last := st.total_agree_w_last + 1
      total_agree_w_correct := tac1 }
  else
    { pd := st.pd
      final_pd := true
      fl := fl1
      total_agree_w_last := st.total_agree_w_last
      total_agree_w_correct := tac1 }

/-- `_calculate_layer_metrics` (lines 808-855): the loop
`for i in range(self.n_layers - 1, -1, -1)` runs over indices
`n-1, n-2, ..., 0`, starting from `pd = n`, `fl = n`, counters `0` and
`final_pd` unset.  (`layer_entropy`, computed before the loop, appears in no
claim and is omitted here.) -/
def calculate_layer_metrics (pred_labels : List Nat) (gold_label : Nat) : LayerScan :=
  let n := pred_labels.length
  ((List.range n).reverse).foldl (layerScanStep pred_labels gold_label)
    { pd := n, final_pd := false, fl := n, total_agree_w_last := 0,
      total_agree_w_correct := 0 }

/-- Length of the run of consecutive elements equal to `a` at the head of a
list. -/
def countRun (a : Nat) : List Nat → Nat
  | [] => 0
  | x :: xs => if x = a then countRun a xs + 1 else 0

/-- Number of leading indices in `idxs` whose layer prediction agrees with the
final layer's prediction. -/
def countAgreeRun (pred_labels : List Nat) : List Nat → Nat
  | [] => 0
  | i :: idxs =>
    if pred_labels.getD i 0 = (pred_labels.getLast?).getD 0 then
      countAgreeRun pred_labels idxs + 1
    else 0

/-- Length of the maximal suffix of `pred_labels` all of whose entries equal
the final entry: the contiguous agreeing run anchored at the final layer,
final layer included. -/
def trailingAgreeWithLast (pred_labels : List Nat) : Nat :=
  match pred_labels.reverse with
  | [] => 0
  | last :: rest => countRun last rest + 1

/-- Claim C6's formula, written from the spec's words: prediction depth is `L`
minus the length of the run of trailing PRE-final layers that agree with the
final layer (the run excludes the final layer itself).  Declared only to be
compared against `calculate_layer_metrics`. -/
def spec_prediction_depth (pred_labels : List Nat) : Nat :=
  pred_labels.length -
    (match pred_labels.reverse with
     | [] => 0
     | last :: rest => countRun last rest)

/-- numpy scalar values on the entropy / cross-entropy path: a finite value
(idealized as a real number), the two infinities, or nan.  Only the logarithm
produces the non-finite cases here. -/
inductive NPVal where
  | fin : Real → NPVal
  | posInf : NPVal
  | negInf : NPVal
  | nan : NPVal

/-- The largest finite IEEE-754 single, `(2^24 - 1) * 2^104 = 2^128 - 2^104`
(about 3.4028235e38).  The metrics path runs in float32: `F.softmax` on
default-dtype torch tensors followed by `.cpu().detach().numpy()` (lines
249-255) yields float32 arrays, `np.log` preserves that dtype, and
`np.nan_to_num` substitutes the extremes of its argument's dtype —
`np.finfo(np.float32).max` here — for `+inf`, and its negation for `-inf`. -/
def float32_max : Rat := 2 ^ 128 - 2 ^ 104

/-- `np.log` on a probability value: `log(0)` is `-inf` (with a runtime
warning, not an error), the log of a negative number is `nan`, and otherwise
the result is the real logarithm.  `noncomputable` only because `Real.log`
is; every claim below evaluates the special-value branches, which need no
transcendental computation. -/
noncomputable def np_log (x : Rat) : NPVal :=
  if x = 0 then NPVal.negInf
  else if x < 0 then NPVal.nan
  else NPVal.fin (Real.log (x : Real))

/-- `np.nan_to_num` with default arguments on a float32 value: `nan ↦ 0.0`,
`+inf ↦ float32_max`, `-inf ↦ -float32_max` — NOT `-inf ↦ 0.0`. -/
noncomputable def nan_to_num : NPVal → Real
  | NPVal.fin r => r
  | NPVal.posInf => ((float32_max : Rat) : Real)
  | NPVal.negInf => -((float32_max : Rat) : Real)
  | NPVal.nan => 0

/-- cross_entropy (sequence_tagger_model.py lines 348-351):
`- np.nan_to_num(np.log(softmax_token[gold_label]))`.  The follow-up
`if cross_entropy == 0: cross_entropy = 0.0` only rewrites IEEE `-0.0` to
`+0.0`, the identity on reals. -/
noncomputable def cross_entropy (softmax_token : List Rat) (gold_label : Nat) : Real :=
  -(nan_to_num (np_log (softmax_token.getD gold_label 0)))

/-- entropy (line 344):
`-np.sum(softmax_token * np.nan_to_num(np.log(softmax_token)))`.
`nan_to_num` is applied elementwise BEFORE the multiplication, so a zero
probability multiplies the substituted finite value (rather than `-inf`). -/
noncomputable def entropy (softmax_token : List Rat) : Real :=
  -((softmax_token.map (fun (x : Rat) => (x : Real) * nan_to_num (np_log x))).sum)

/-- Python `s.endswith(t)`, by char lists (structural, kernel-evaluable). -/
def strEndsWith (s t : String) : Bool := t.data.isSuffixOf s.data

/-- `prev.split('-')[1]`: the entity-type suffix after the first dash.  On a
string without a dash the source raises IndexError; in the pipeline `prev` is
always a non-O BIO tag of the shape `X-TYPE`, and this returns `""` there. -/
def tagTypeSuffix (prev : String) : String :=
  String.mk ((pySplit '-' prev.data).getD 1 [])

/-- flair token as the remediation pipeline uses it: a total map from label
column names to tag values (flair's `get_label` yields the zero tag `"O"` for
a column never set, so unset columns are `"O"`) and a total map from metric
names to metric values. -/
structure PToken where
  labels : String → String
  metrics : String → Rat

def getLabel (t : PToken) (col : String) : String := t.labels col

def setLabel (t : PToken) (col v : String) : PToken :=
  { t with labels := fun c => if c = col then v else t.labels c }

def getMetric (t : PToken) (m : String) : Rat := t.metrics m

def setMetric (t : PToken) (m : String) (v : Rat) : PToken :=
  { t with metrics := fun c => if c = m then v else t.metrics c }

/-- A span-level label: flair `span.set_label(column, value)` on the span of
tokens `first..last` of a sentence (the score argument carries no decision
logic and is dropped). -/
structure SpanLabel where
  column : String
  first : Nat
  last : Nat
  value : String

/-- A sentence: its token sequence plus its span-level annotations. -/
structure PSentence where
  tokens : List PToken
  spanLabels : List SpanLabel

/-- category_conditions (pipeline_sample_metrics_token_categories.py lines
35-40): category id ↦ (pred == observed, observed == O).  A lookup outside the
table raises KeyError in the source; the pipeline only passes keys of the
table (main() iterates exactly over them). -/
def category_conditions : String → Option (Bool × Bool)
  | "1" => some (true, true)
  | "2" => some (false, true)
  | "3" => some (true, false)
  | "4" => some (false, false)
  | _ => none

/-- The category test shared by relabel_category (lines 508-511) and
mask_category (lines 563-566): the observed BIO tag does not end in MASK, the
prediction-matches-observed bit equals the category's first component, and the
observed-is-O bit equals its second.  (`false` on ids outside the table, where
the source would raise KeyError; unreachable in the pipeline.) -/
def tokenInCategory (t : PToken)
    (tag_column_bio prediction_bio_column category_id : String) : Bool :=
  match category_conditions category_id with
  | none => false
  | some cond =>
    (!(strEndsWith (getLabel t tag_column_bio) "MASK"))
    && ((getLabel t tag_column_bio == getLabel t prediction_bio_column) == cond.1)
    && ((getLabel t tag_column_bio == "O") == cond.2)

/-- The threshold rule of both remediation actions: direction `"left"`
triggers strictly below the threshold, any other direction strictly above. -/
def thresholdTest (t : PToken) (metric : String) (threshold : Rat) (direction : String) :
    Bool :=
  if direction == "left" then decide (getMetric t metric < threshold)
  else decide (threshold < getMetric t metric)

/-- The parameters shared by relabel_category and mask_category; the `_bio`
working-column names are derived from the span-column names as in the
source. -/
structure RemParams where
  tag_column : String
  new_tag_column : String
  prediction_bio_column : String
  metric : String
  threshold : Rat
  direction : String
  category_id : String

def RemParams.tagBio (p : RemParams) : String := p.tag_column ++ "_bio"

def RemParams.newBio (p : RemParams) : String := p.new_tag_column ++ "_bio"

/-- Spans re-derived from the updated working tags and written as span labels
under the new tag column (relabel_category lines 536-541, mask_category lines
582-588).  `get_spans_from_bio` is flair library code, outside this
repository, so it enters as the parameter `spanFn` returning
(token-index list, score, label) triples exactly as in the source; spans with
label `"O"` are skipped. -/
def addNewSpans (new_tag_column : String)
    (spanFn : List String → List (List Nat × Rat × String))
    (bioes_tags : List String) (spanLabels : List SpanLabel) : List SpanLabel :=
  (spanFn bioes_tags).foldl
    (fun acc sp =>
      if sp.2.2 != "O" then
        acc ++ [{ column := new_tag_column, first := sp.1.headD 0,
                  last := (sp.1.getLast?).getD 0, value := sp.2.2 }]
      else acc)
    spanLabels

/-- mask_category, per-token action (lines 562-577): a token in the step's
category that passes the threshold test has its working new BIO tag set to the
single-token `S-MASK` tag; every other token is untouched. -/
def mask_token (p : RemParams) (t : PToken) : PToken :=
  if tokenInCategory t p.tagBio p.prediction_bio_column p.category_id
      && thresholdTest t p.metric p.threshold p.direction then
    setLabel t p.newBio "S-MASK"
  else t

/-- mask_category, one sentence (lines 551-588): tokens are tested
independently (the write-only `flag` variable of the source is dropped), the
counter counts the triggered tokens, and the new span column is re-derived
from the updated working tags. -/
def mask_sentence (p : RemParams)
    (spanFn : List String → List (List Nat × Rat × String)) (s : PSentence) :
    PSentence × Nat :=
  let tokens1 := s.tokens.map (mask_token p)
  ({ tokens := tokens1
     spanLabels := addNewSpans p.new_tag_column spanFn
       (tokens1.map (fun t => getLabel t p.newBio)) s.spanLabels },
   (s.tokens.filter (fun t =>
      tokenInCategory t p.tagBio p.prediction_bio_column p.category_id
        && thresholdTest t p.metric p.threshold p.direction)).length)

/-- mask_category (lines 545-589): sentence by sentence; returns the updated
dataset and the pair `(tokens_changed, 0)` as in the source. -/
def mask_category (p : RemParams)
    (spanFn : List String → List (List Nat × Rat × String))
    (dataset : List PSentence) : List PSentence × Nat × Nat :=
  ((dataset.map (fun s => (mask_sentence p spanFn s).1)),
   ((dataset.map (fun s => (mask_sentence p spanFn s).2)).sum, 0))

/-- The relabel loop state (lines 503-505): the predicted tag of the last
threshold-relabelled token, the propagation flag, and the two counters. -/
structure RelState where
  prev : String
  previous_changed : Bool
  tokens_changed : Nat
  tokens_changed_additionally : Nat
deriving Repr, DecidableEq

/-- relabel_category, per-token transition (lines 507-533).  A token in the
step's category is relabelled to its predicted BIO tag when it passes the
threshold test (which also arms the propagation state); when it fails the
test, nothing happens AND the propagation state is left unchanged.  A token
NOT in the category is relabelled by propagation when the state is armed with
a non-O anchor and both its observed and predicted tags end in the anchor's
entity-type suffix; otherwise the propagation flag is reset. -/
def relabel_token (p : RemParams) (st : RelState) (t : PToken) : RelState × PToken :=
  if tokenInCategory t p.tagBio p.prediction_bio_column p.category_id then
    if thresholdTest t p.metric p.threshold p.direction then
      ({ st with
          prev := getLabel t p.prediction_bio_column
          previous_changed := true
          tokens_changed := st.tokens_changed + 1 },
       setLabel t p.newBio (getLabel t p.prediction_bio_column))
    else (st, t)
  else
    if st.previous_changed && (st.prev != "O")
        && strEndsWith (getLabel t p.tagBio) (tagTypeSuffix st.prev)
        && strEndsWith (getLabel t p.prediction_bio_column) (tagTypeSuffix st.prev) then
      ({ st with tokens_changed_additionally := st.tokens_changed_additionally + 1 },
       setLabel t p.newBio (getLabel t p.prediction_bio_column))
    else
      ({ st with previous_changed := false }, t)

/-- The relabel loop over one sentence's tokens, left to right. -/
def relabel_tokens_go (p : RemParams) (st : RelState) :
    List PToken → List PToken × RelState
  | [] => ([], st)
  | t :: ts =>
    let r := relabel_token p st t
    let rest := relabel_tokens_go p r.1 ts
    (r.2 :: rest.1, rest.2)

/-- relabel_category, one sentence (lines 502-541): `prev` and
`previous_changed` restart at every sentence, the counters continue across
sentences, and the new span column is re-derived from the updated working
tags. -/
def relabel_sentence (p : RemParams)
    (spanFn : List String → List (List Nat × Rat × String))
    (counters : Nat × Nat) (s : PSentence) : PSentence × Nat × Nat :=
  let r := relabel_tokens_go p
    { prev := "O", previous_changed := false,
      tokens_changed := counters.1, tokens_changed_additionally := counters.2 } s.tokens
  ({ tokens := r.1
     spanLabels := addNewSpans p.new_tag_column spanFn
       (r.1.map (fun t => getLabel t p.newBio)) s.spanLabels },
   (r.2.tokens_changed, r.2.tokens_changed_additionally))

def relabel_go (p : RemParams)
    (spanFn : List String → List (List Nat × Rat × String)) :
    Nat × Nat → List PSentence → List PSentence × Nat × Nat
  | c, [] => ([], c)
  | c, s :: ss =>
    let r := relabel_sentence p spanFn c s
    let rest := relabel_go p spanFn r.2 ss
    (r.1 :: rest.1, rest.2)

/-- relabel_category (lines 494-542): the sentence loop, counters starting at
zero. -/
def relabel_category (p : RemParams)
    (spanFn : List String → List (List Nat × Rat × String))
    (dataset : List PSentence) : List PSentence × Nat × Nat :=
  relabel_go p spanFn (0, 0) dataset

/-- One token row of an epoch log file as consumed by
update_dataset_with_epoch_log_info: the predicted tag, the observed (noisy)
tag, and the step metric's value. -/
structure LogEntry where
  predicted : String
  noisy : String
  metricValue : Rat

/-- update_dataset_with_epoch_log_info, per-token effect (lines 325-330):
write the log's predicted tag, observed tag and metric value onto the token's
working columns. -/
def apply_log_token (metric predicted_bio_column tag_bio_column : String)
    (e : LogEntry) (t : PToken) : PToken :=
  setMetric
    (setLabel (setLabel t predicted_bio_column e.predicted) tag_bio_column e.noisy)
    metric e.metricValue

/-- update_dataset_with_epoch_log_info (lines 302-330) for a log aligned with
the dataset (the source addresses tokens by the sent_index / token_index
columns of the file; an aligned nested list is the same addressing). -/
def apply_epoch_log (metric predicted_bio_column tag_bio_column : String)
    (log : List (List LogEntry)) (dataset : List PSentence) : List PSentence :=
  List.zipWith
    (fun es s =>
      let tokens1 := List.zipWith
        (apply_log_token metric predicted_bio_column tag_bio_column) es s.tokens
      { s with tokens := tokens1 })
    log dataset

/-- One entry of run_experiment's remediation schedule (lines 670-718): the
step parameters, the action, and the content of the step's epoch log. -/
structure RemStep where
  params : RemParams
  modification : String
  log : List (List LogEntry)

/-- One iteration of run_experiment's schedule loop (lines 670-718): reload
the predicted / observed working columns and the step metric from the step's
epoch log, then apply the step's action to the working new-tag columns. -/
def run_remediation_step (spanFn : List String → List (List Nat × Rat × String))
    (st : RemStep) (d : List PSentence) : List PSentence :=
  let d1 := apply_epoch_log st.params.metric st.params.prediction_bio_column
    st.params.tagBio st.log d
  if st.modification == "relabel" then (relabel_category st.params spanFn d1).1
  else if st.modification == "mask" then (mask_category st.params spanFn d1).1
  else d1

/-- The remediation schedule, executed in trigger-epoch order. -/
def run_schedule (spanFn : List String → List (List Nat × Rat × String))
    (steps : List RemStep) (d : List PSentence) : List PSentence :=
  steps.foldl (fun acc s => run_remediation_step spanFn s acc) d

/-- copy_new_tag_to_original (lines 612-615): every span labelled in the new
tag column gets that value written to the original tag column (the only place
where the original annotation is overwritten). -/
def copy_new_tag_to_original (tag_column new_tag_column : String)
    (dataset : List PSentence) : List PSentence :=
  dataset.map (fun s =>
    let spans1 := (s.spanLabels.filter (fun sl => sl.column == new_tag_column)).foldl
      (fun acc sl => acc ++ [{ sl with column := tag_column }]) s.spanLabels
    { s with spanLabels := spans1 })

/-- A token all of whose label columns hold the zero tag `"O"` and all of
whose metrics are 0: a freshly loaded non-entity token after
add_bioes_ner_tags. -/
def baseToken : PToken := { labels := fun _ => "O", metrics := fun _ => 0 }

def emptySentence : PSentence := { tokens := [], spanLabels := [] }

/-- The span-derivation parameter instantiated trivially for the concrete
counterexample runs (the token-level claims do not depend on it). -/
def noSpans : List String → List (List Nat × Rat × String) := fun _ => []

/-- The ids of the category table, in order. -/
def categoryIds : List String := ["1", "2", "3", "4"]

/-- The pipeline's column parameters as run_experiment passes them
(tag_type `"ner"`, new column `"ner_new"`, prediction column
`"predicted_bio"`), here with a mask step on category 1, metric confidence,
threshold 1/2, direction left. -/
def maskStepParams : RemParams :=
  { tag_column := "ner", new_tag_column := "ner_new",
    prediction_bio_column := "predicted_bio", metric := "confidence",
    threshold := mkRat 1 2, direction := "left", category_id := "1" }

def relabelStepParams : RemParams := { maskStepParams with category_id := "2" }

/-- C4 schedule, step 1: a mask step on category 1 whose epoch log reports the
single token as predicted `"O"` with observed `"O"` and confidence 0. -/
def c4Step1 : RemStep :=
  { params := maskStepParams, modification := "mask",
    log := [[{ predicted := "O", noisy := "O", metricValue := 0 }]] }

/-- C4 schedule, step 2: a later relabel step on category 2 whose epoch log
reports the same token as predicted `"S-PER"` with observed `"O"` and
confidence 0. -/
def c4Step2 : RemStep :=
  { params := relabelStepParams, modification := "relabel",
    log := [[{ predicted := "S-PER", noisy := "O", metricValue := 0 }]] }

def c4Dataset : List PSentence := [{ tokens := [baseToken], spanLabels := [] }]

def c5Params : RemParams := { maskStepParams with category_id := "4" }

/-- C5 sentence, token 0: observed `B-PER`, predicted `S-PER`, confidence 1/10
(category 4, passes the left threshold 1/2, so it is threshold-relabelled). -/
def c5Token0 : PToken :=
  setMetric
    (setLabel (setLabel (setLabel baseToken "ner_bio" "B-PER")
        "predicted_bio" "S-PER") "ner_new_bio" "B-PER")
    "confidence" (mkRat 1 10)

/-- C5 sentence, token 1: observed `E-PER`, predicted `B-PER`, confidence 9/10
(category 4 — both tags end in the entity type PER of the preceding relabel —
but it fails the threshold test). -/
def c5Token1 : PToken :=
  setMetric
    (setLabel (setLabel (setLabel baseToken "ner_bio" "E-PER")
        "predicted_bio" "B-PER") "ner_new_bio" "E-PER")
    "confidence" (mkRat 9 10)

def c5Dataset : List PSentence := [{ tokens := [c5Token0, c5Token1], spanLabels := [] }]

/-- C5 witness token: NOT in category 4 (observed equals predicted), with both
tags ending in the armed anchor's entity type. -/
def c5PropToken : PToken :=
  setMetric
    (setLabel (setLabel (setLabel baseToken "ner_bio" "E-PER")
        "predicted_bio" "E-PER") "ner_new_bio" "E-PER")
    "confidence" (mkRat 9 10)

def c5WitState : RelState :=
  { prev := "S-PER", previous_changed := true, tokens_changed := 1,
    tokens_changed_additionally := 0 }

/-- The frame property of claim C9: in a related pair of datasets, every
token's value in the original span column and the original BIO column is
unchanged, and so are the span labels of the original span column. -/
def preservesOriginal (p : RemParams) (d d1 : List PSentence) : Prop :=
  List.Forall₂ (fun s s1 =>
    List.Forall₂ (fun t t1 =>
      getLabel t1 p.tag_column = getLabel t p.tag_column
      ∧ getLabel t1 p.tagBio = getLabel t p.tagBio) s.tokens s1.tokens
    ∧ s1.spanLabels.filter (fun sl => sl.column == p.tag_column)
        = s.spanLabels.filter (fun sl => sl.column == p.tag_column)) d d1

theorem calcMetrics_hist_MILD (h : History) (p : List Rat) (y : Nat) :
    ((calcMetrics h p y).2).hist_MILD
      = h.hist_MILD ++ [if argmaxIdx p = y then 1 else 0] := rfl

theorem calcMetrics_total_epochs (h : History) (p : List Rat) (y : Nat) :
    ((calcMetrics h p y).2).total_epochs = h.total_epochs + 1 := rfl

theorem calcMetrics_mild_f (h : History) (p : List Rat) (y : Nat) :
    ((calcMetrics h p y).1).mild_f
      = calculate_mild_f (h.hist_MILD ++ [if argmaxIdx p = y then 1 else 0]) := rfl

theorem calcMetrics_mild_m (h : History) (p : List Rat) (y : Nat) :
    ((calcMetrics h p y).1).mild_m
      = calculate_mild_m (h.hist_MILD ++ [if argmaxIdx p = y then 1 else 0]) := rfl

theorem calcMetrics_mild (h : History) (p : List Rat) (y : Nat) :
    ((calcMetrics h p y).1).mild
      = (calculate_mild_m (h.hist_MILD ++ [if argmaxIdx p = y then 1 else 0]) : Int)
        - (calculate_mild_f (h.hist_MILD ++ [if argmaxIdx p = y then 1 else 0]) : Int) := rfl

theorem runUpdates_cons (h : History) (s : List Rat × Nat) (ss : List (List Rat × Nat)) :
    runUpdates h (s :: ss) = runUpdates ((calcMetrics h s.1 s.2).2) ss := rfl

theorem runUpdates_hist_MILD_length (steps : List (List Rat × Nat)) :
    ∀ h : History, h.hist_MILD.length = h.total_epochs + 1 →
      (runUpdates h steps).hist_MILD.length = (runUpdates h steps).total_epochs + 1 := by
  induction steps with
  | nil => intro h hh; simpa [runUpdates] using hh
  | cons s ss ih =>
    intro h hh
    have hstep : ((calcMetrics h s.1 s.2).2).hist_MILD.length
        = ((calcMetrics h s.1 s.2).2).total_epochs + 1 := by
      rw [calcMetrics_hist_MILD, calcMetrics_total_epochs, List.length_append, hh]
      simp [Nat.add_comm, Nat.add_left_comm]
    rw [runUpdates_cons]
    exact ih _ hstep

/-- C1 counterexample: immediately after initialization the stored
`total_epochs` counter is `0` while the stored correctness-history list
`hist_MILD` already has length `1` (it is seeded with `[0]`), so the claimed
invariant `total_epochs == len(hist_MILD)` fails. -/
theorem c1_counterexample :
    ¬ ((initHistory 2).total_epochs = (initHistory 2).hist_MILD.length) := by
  decide

/-- C1 (amended): for every tagset size and every sequence of per-epoch metric
updates, the stored correctness-history list `hist_MILD` has length
`total_epochs + 1`: initialization seeds it with the single flag `[0]` at
`total_epochs = 0`, and every epoch update appends exactly one flag while
incrementing the counter. -/
theorem c1_amended (tagset_size : Nat) (steps : List (List Rat × Nat)) :
    (runUpdates (initHistory tagset_size) steps).hist_MILD.length
      = (runUpdates (initHistory tagset_size) steps).total_epochs + 1 :=
  runUpdates_hist_MILD_length steps (initHistory tagset_size) (by simp [initHistory])

/-- C2 counterexample: a token whose three epoch updates have correctness
flags `[1, 0, 1]` (here realized with softmax `[mkRat 1 5, mkRat 4 5]` and observed labels
`1, 0, 1`, so the argmax `1` is correct, incorrect, correct).  Because the
history is seeded with `[0]`, the flag string for the third epoch is `"0101"`,
giving `mild_f = 2` but `mild_m = 2` and `mild = 0`, refuting the claimed
`mild_m = 1` and `mild = -1`. -/
theorem c2_counterexample :
    ((calcMetrics (runUpdates (initHistory 2) [([mkRat 1 5, mkRat 4 5], 1), ([mkRat 1 5, mkRat 4 5], 0)])
        [mkRat 1 5, mkRat 4 5] 1).1.mild_f = 2
    ∧ (calcMetrics (runUpdates (initHistory 2) [([mkRat 1 5, mkRat 4 5], 1), ([mkRat 1 5, mkRat 4 5], 0)])
        [mkRat 1 5, mkRat 4 5] 1).1.mild_m = 2
    ∧ (calcMetrics (runUpdates (initHistory 2) [([mkRat 1 5, mkRat 4 5], 1), ([mkRat 1 5, mkRat 4 5], 0)])
        [mkRat 1 5, mkRat 4 5] 1).1.mild = 0)
    ∧ ¬ ((calcMetrics (runUpdates (initHistory 2) [([mkRat 1 5, mkRat 4 5], 1), ([mkRat 1 5, mkRat 4 5], 0)])
        [mkRat 1 5, mkRat 4 5] 1).1.mild_m = 1
      ∧ (calcMetrics (runUpdates (initHistory 2) [([mkRat 1 5, mkRat 4 5], 1), ([mkRat 1 5, mkRat 4 5], 0)])
        [mkRat 1 5, mkRat 4 5] 1).1.mild = -1) := by
  constructor
  · refine ⟨?_, ?_, ?_⟩ <;> decide
  · decide

/-- C2 (amended): for a token whose history has gone through exactly 3 epoch
updates with per-epoch correctness flags `[1, 0, 1]`, the stored history is
`[0, 1, 0, 1]` (the initialization seeds a leading `0` flag), so the third
epoch's metrics split the string `"0101"`: on `'0'` into `["1", "1"]` giving
`mild_f = 2`, and on `'1'` into `["0", "0"]` giving `mild_m = 2`, hence
`mild = mild_m - mild_f = 0`. -/
theorem c2_amended (ts : Nat) (p1 p2 p3 : List Rat) (y1 y2 y3 : Nat)
    (h1 : argmaxIdx p1 = y1) (h2 : ¬ argmaxIdx p2 = y2) (h3 : argmaxIdx p3 = y3) :
    (calcMetrics (runUpdates (initHistory ts) [(p1, y1), (p2, y2)]) p3 y3).1.mild_f = 2
    ∧ (calcMetrics (runUpdates (initHistory ts) [(p1, y1), (p2, y2)]) p3 y3).1.mild_m = 2
    ∧ (calcMetrics (runUpdates (initHistory ts) [(p1, y1), (p2, y2)]) p3 y3).1.mild = 0 := by
  have e : (runUpdates (initHistory ts) [(p1, y1), (p2, y2)]).hist_MILD = [0, 1, 0] := by
    rw [runUpdates_cons, runUpdates_cons]
    show ((calcMetrics (calcMetrics (initHistory ts) p1 y1).2 p2 y2).2).hist_MILD = _
    rw [calcMetrics_hist_MILD, calcMetrics_hist_MILD]
    simp [initHistory, h1, h2]
  refine ⟨?_, ?_, ?_⟩
  · rw [calcMetrics_mild_f, e, if_pos h3]; decide
  · rw [calcMetrics_mild_m, e, if_pos h3]; decide
  · rw [calcMetrics_mild, e, if_pos h3]; decide

/-- C2 witness: the amended statement evaluated on a concrete 3-epoch run with
correctness flags `[1, 0, 1]`. -/
theorem c2_amended_witness :
    (calcMetrics (runUpdates (initHistory 2) [([mkRat 1 5, mkRat 4 5], 1), ([mkRat 1 5, mkRat 4 5], 0)])
        [mkRat 1 5, mkRat 4 5] 1).1.mild_f = 2
    ∧ (calcMetrics (runUpdates (initHistory 2) [([mkRat 1 5, mkRat 4 5], 1), ([mkRat 1 5, mkRat 4 5], 0)])
        [mkRat 1 5, mkRat 4 5] 1).1.mild_m = 2
    ∧ (calcMetrics (runUpdates (initHistory 2) [([mkRat 1 5, mkRat 4 5], 1), ([mkRat 1 5, mkRat 4 5], 0)])
        [mkRat 1 5, mkRat 4 5] 1).1.mild = 0 :=
  c2_amended 2 [mkRat 1 5, mkRat 4 5] [mkRat 1 5, mkRat 4 5] [mkRat 1 5, mkRat 4 5] 1 0 1 (by decide) (by decide) (by decide)

/-- C3: for every history, softmax vector and observed label, with
`n = total_epochs + 1` and `p_y` the softmax probability of the observed
label, the calculator returns `confidence_sum' = last_confidence_sum + p_y`,
`confidence = confidence_sum' / n`,
`sq_diff_sum' = last_sq_difference_sum + (p_y - confidence)^2` (the mean is
the current epoch's confidence), and
`variability = sqrt(sq_diff_sum' / n)`; the two updated sums are written back
into the returned history. -/
theorem c3_running_statistics (h : History) (softmax_token : List Rat) (gold_label : Nat) :
    (calcMetrics h softmax_token gold_label).2.last_confidence_sum
      = h.last_confidence_sum + softmax_token.getD gold_label 0
    ∧ (calcMetrics h softmax_token gold_label).1.confidence
      = (h.last_confidence_sum + softmax_token.getD gold_label 0)
          / ((h.total_epochs + 1 : Nat) : Rat)
    ∧ (calcMetrics h softmax_token gold_label).2.last_sq_difference_sum
      = h.last_sq_difference_sum
        + (softmax_token.getD gold_label 0
            - (calcMetrics h softmax_token gold_label).1.confidence) ^ 2
    ∧ Real.sqrt ((variabilitySq h softmax_token gold_label : Rat) : Real)
      = Real.sqrt (((h.last_sq_difference_sum
          + (softmax_token.getD gold_label 0
              - (h.last_confidence_sum + softmax_token.getD gold_label 0)
                  / ((h.total_epochs + 1 : Nat) : Rat)) ^ 2)
          / ((h.total_epochs + 1 : Nat) : Rat) : Rat) : Real) :=
  ⟨rfl, rfl, rfl, rfl⟩

theorem layerScanStep_agree (pl : List Nat) (g i : Nat) (st : LayerScan)
    (hp : pl.getD i 0 = (pl.getLast?).getD 0) :
    (layerScanStep pl g st i).pd = (if st.final_pd then st.pd else st.pd - 1)
    ∧ (layerScanStep pl g st i).final_pd = st.final_pd
    ∧ (layerScanStep pl g st i).total_agree_w_last = st.total_agree_w_last + 1 := by
  simp [List.getD] at hp
  simp [layerScanStep, List.getD, hp]

theorem layerScanStep_disagree (pl : List Nat) (g i : Nat) (st : LayerScan)
    (hp : ¬ pl.getD i 0 = (pl.getLast?).getD 0) :
    (layerScanStep pl g st i).pd = st.pd
    ∧ (layerScanStep pl g st i).final_pd = true
    ∧ (layerScanStep pl g st i).total_agree_w_last = st.total_agree_w_last := by
  simp [List.getD] at hp
  simp [layerScanStep, List.getD, hp]

theorem layerScan_absorb (pl : List Nat) (g : Nat) :
    ∀ (idxs : List Nat) (st : LayerScan), st.final_pd = true →
      (idxs.foldl (layerScanStep pl g) st).pd = st.pd := by
  intro idxs
  induction idxs with
  | nil => intro st _; rfl
  | cons i idxs ih =>
    intro st h
    by_cases hp : pl.getD i 0 = (pl.getLast?).getD 0
    · have hs := layerScanStep_agree pl g i st hp
      rw [List.foldl_cons, ih _ (by rw [hs.2.1, h]), hs.1, h, if_pos rfl]
    · have hs := layerScanStep_disagree pl g i st hp
      rw [List.foldl_cons, ih _ hs.2.1, hs.1]

theorem layerScan_run (pl : List Nat) (g : Nat) :
    ∀ (idxs : List Nat) (st : LayerScan), st.final_pd = false →
      (idxs.foldl (layerScanStep pl g) st).pd = st.pd - countAgreeRun pl idxs := by
  intro idxs
  induction idxs with
  | nil => intro st _; rfl
  | cons i idxs ih =>
    intro st h
    by_cases hp : pl.getD i 0 = (pl.getLast?).getD 0
    · have hs := layerScanStep_agree pl g i st hp
      rw [List.foldl_cons, ih _ (by rw [hs.2.1, h]), hs.1, h, if_neg (by simp)]
      rw [countAgreeRun, if_pos hp, Nat.sub_sub, Nat.add_comm]
    · have hs := layerScanStep_disagree pl g i st hp
      rw [List.foldl_cons, layerScan_absorb pl g idxs _ hs.2.1, hs.1,
        countAgreeRun, if_neg hp, Nat.sub_zero]

theorem calculate_layer_metrics_pd (pl : List Nat) (g : Nat) :
    (calculate_layer_metrics pl g).pd
      = pl.length - countAgreeRun pl (List.range pl.length).reverse :=
  layerScan_run pl g _ _ rfl

theorem countAgreeRun_eq_countRun (pl : List Nat) :
    ∀ idxs, countAgreeRun pl idxs
      = countRun ((pl.getLast?).getD 0) (idxs.map (fun i => pl.getD i 0)) := by
  intro idxs
  induction idxs with
  | nil => rfl
  | cons i idxs ih => rw [countAgreeRun, List.map_cons, countRun, ih]

theorem map_getD_range (l : List Nat) :
    (List.range l.length).map (fun i => l.getD i 0) = l := by
  induction l with
  | nil => rfl
  | cons a t ih =>
    rw [List.length_cons, List.range_succ_eq_map, List.map_cons, List.map_map]
    have hc : ((fun i => (a :: t).getD i 0) ∘ Nat.succ) = fun i => t.getD i 0 := by
      funext i
      simp [Function.comp, List.getD_cons_succ]
    rw [hc, ih, List.getD_cons_zero]

theorem countAgreeRun_range (pl : List Nat) :
    countAgreeRun pl (List.range pl.length).reverse
      = countRun ((pl.getLast?).getD 0) pl.reverse := by
  rw [countAgreeRun_eq_countRun, List.map_reverse, map_getD_range]

theorem trailingAgree_eq (pl : List Nat) (h : pl ≠ []) :
    countRun ((pl.getLast?).getD 0) pl.reverse = trailingAgreeWithLast pl := by
  unfold trailingAgreeWithLast
  cases hr : pl.reverse with
  | nil => exact absurd (by simpa using hr) h
  | cons b rest =>
    have hb : pl.getLast? = some b := by
      rw [← List.head?_reverse, hr]
      rfl
    rw [hb]
    simp [countRun]

theorem calculate_layer_metrics_def (pl : List Nat) (g : Nat) :
    calculate_layer_metrics pl g
      = ((List.range pl.length).reverse).foldl (layerScanStep pl g)
          { pd := pl.length, final_pd := false, fl := pl.length,
            total_agree_w_last := 0, total_agree_w_correct := 0 } := rfl

theorem layer_pd_formula (pl : List Nat) (g : Nat) (h : pl ≠ []) :
    (calculate_layer_metrics pl g).pd = pl.length - trailingAgreeWithLast pl := by
  rw [calculate_layer_metrics_pd, countAgreeRun_range, trailingAgree_eq pl h]

theorem layerScanStep_tal_ge (pl : List Nat) (g i : Nat) (st : LayerScan) :
    st.total_agree_w_last ≤ (layerScanStep pl g st i).total_agree_w_last := by
  by_cases hp : pl.getD i 0 = (pl.getLast?).getD 0
  · rw [(layerScanStep_agree pl g i st hp).2.2]
    exact Nat.le_succ _
  · rw [(layerScanStep_disagree pl g i st hp).2.2]

theorem layerScan_tal_mono (pl : List Nat) (g : Nat) :
    ∀ (idxs : List Nat) (st : LayerScan),
      st.total_agree_w_last ≤ (idxs.foldl (layerScanStep pl g) st).total_agree_w_last := by
  intro idxs
  induction idxs with
  | nil => intro st; exact Nat.le_refl _
  | cons i idxs ih =>
    intro st
    rw [List.foldl_cons]
    exact Nat.le_trans (layerScanStep_tal_ge pl g i st) (ih _)

theorem getD_last (pl : List Nat) (h : pl ≠ []) :
    pl.getD (pl.length - 1) 0 = (pl.getLast?).getD 0 := by
  induction pl with
  | nil => exact absurd rfl h
  | cons a t ih =>
    cases t with
    | nil => rfl
    | cons b u =>
      have ht : (b :: u) ≠ [] := by simp
      have hl : (a :: b :: u).length - 1 = (b :: u).length - 1 + 1 := by
        simp
      rw [hl, List.getD_cons_succ, ih ht, List.getLast?_cons_cons]

theorem range_reverse_cons (m : Nat) :
    (List.range (m + 1)).reverse = m :: (List.range m).reverse := by
  rw [List.range_succ, List.reverse_append]
  rfl

theorem countRun_all (a : Nat) : ∀ xs : List Nat, (∀ x ∈ xs, x = a) →
    countRun a xs = xs.length := by
  intro xs
  induction xs with
  | nil => intro _; rfl
  | cons x xs ih =>
    intro hx
    rw [countRun, if_pos (hx x (List.mem_cons_self x xs)), List.length_cons,
      ih (fun y hy => hx y (List.mem_cons_of_mem x hy))]

theorem trailingAgree_pos (pl : List Nat) (h : pl ≠ []) :
    1 ≤ trailingAgreeWithLast pl := by
  unfold trailingAgreeWithLast
  cases hr : pl.reverse with
  | nil => exact absurd (by simpa using hr) h
  | cons b rest => exact Nat.succ_le_succ (Nat.zero_le _)

/-- C6 counterexample: for the two-layer prediction stack `[0, 0]` (both layers
agree), the code's scan starts at the final layer itself and returns
`prediction_depth = 0`, while the claim's formula (`L` minus the run of
trailing PRE-final agreeing layers, scan from `L-2`) gives `2 - 1 = 1`. -/
theorem c6_counterexample :
    (calculate_layer_metrics [0, 0] 0).pd ≠ spec_prediction_depth [0, 0] := by
  decide

/-- C6 (amended): the backward scan starts at index `L-1` — the final layer,
which always agrees with its own prediction — and decrements once per layer of
the contiguous agreeing run anchored at the final layer inclusive; so for every
non-empty prediction stack, `prediction_depth` equals `L` minus the length of
the maximal suffix of layers agreeing with the final layer's argmax (final
layer included). -/
theorem c6_amended (pred_labels : List Nat) (gold_label : Nat) (h : pred_labels ≠ []) :
    (calculate_layer_metrics pred_labels gold_label).pd
      = pred_labels.length - trailingAgreeWithLast pred_labels :=
  layer_pd_formula pred_labels gold_label h

/-- C6 witness: the amended formula evaluated on the concrete stack
`[0, 1, 1]` (trailing agreeing run of length 2, so `pd = 1`). -/
theorem c6_amended_witness :
    (calculate_layer_metrics [0, 1, 1] 0).pd = 3 - trailingAgreeWithLast [0, 1, 1] :=
  c6_amended [0, 1, 1] 0 (by decide)

/-- C10: for every non-empty stack of per-layer predictions, the scan includes
the final layer itself (which always agrees with its own prediction), so
`total_agree_w_last ≥ 1` and `prediction_depth ≤ L - 1`; in particular
`prediction_depth = 0` when every layer agrees with the final layer. -/
theorem c10_scan_includes_final_layer (pred_labels : List Nat) (gold_label : Nat)
    (h : pred_labels ≠ []) :
    1 ≤ (calculate_layer_metrics pred_labels gold_label).total_agree_w_last
    ∧ (calculate_layer_metrics pred_labels gold_label).pd ≤ pred_labels.length - 1
    ∧ ((∀ x ∈ pred_labels, x = (pred_labels.getLast?).getD 0) →
        (calculate_layer_metrics pred_labels gold_label).pd = 0) := by
  obtain ⟨m, hm⟩ : ∃ m, pred_labels.length = m + 1 :=
    ⟨pred_labels.length - 1,
      (Nat.succ_pred_eq_of_pos (List.length_pos.mpr h)).symm⟩
  refine ⟨?_, ?_, ?_⟩
  · rw [calculate_layer_metrics_def, hm, range_reverse_cons, List.foldl_cons]
    refine Nat.le_trans ?_ (layerScan_tal_mono pred_labels gold_label _ _)
    have hp : pred_labels.getD m 0 = (pred_labels.getLast?).getD 0 := by
      have := getD_last pred_labels h
      rwa [hm, Nat.add_sub_cancel] at this
    rw [(layerScanStep_agree pred_labels gold_label m _ hp).2.2]
  · rw [layer_pd_formula pred_labels gold_label h]
    exact Nat.sub_le_sub_left (trailingAgree_pos pred_labels h) _
  · intro hall
    rw [layer_pd_formula pred_labels gold_label h]
    have : trailingAgreeWithLast pred_labels = pred_labels.length := by
      unfold trailingAgreeWithLast
      cases hr : pred_labels.reverse with
      | nil => exact absurd (by simpa using hr) h
      | cons b rest =>
        have hb : pred_labels.getLast? = some b := by
          rw [← List.head?_reverse, hr]
          rfl
        have hrest : ∀ x ∈ rest, x = b := by
          intro x hx
          have hxpl : x ∈ pred_labels := by
            rw [← List.mem_reverse, hr]
            exact List.mem_cons_of_mem b hx
          rw [hall x hxpl, hb]
          rfl
        have hlen : pred_labels.length = rest.length + 1 := by
          rw [← List.length_reverse, hr, List.length_cons]
        show countRun b rest + 1 = pred_labels.length
        rw [countRun_all b rest hrest, hlen]
    rw [this, Nat.sub_self]

/-- C10 witness: the theorem applied to the concrete all-agreeing stack
`[0, 0]`: at least one layer agrees with the last, `pd ≤ 1`, and since both
layers agree with the final prediction, `pd = 0`. -/
theorem c10_witness :
    1 ≤ (calculate_layer_metrics [0, 0] 0).total_agree_w_last
    ∧ (calculate_layer_metrics [0, 0] 0).pd ≤ 2 - 1
    ∧ (calculate_layer_metrics [0, 0] 0).pd = 0 :=
  ⟨(c10_scan_includes_final_layer [0, 0] 0 (by decide)).1,
   (c10_scan_includes_final_layer [0, 0] 0 (by decide)).2.1,
   (c10_scan_includes_final_layer [0, 0] 0 (by decide)).2.2 (by decide)⟩

theorem entropy_sum_filter (p : List Rat) :
    ((p.map (fun (x : Rat) => (x : Real) * nan_to_num (np_log x))).sum)
      = (((p.filter (fun x => !(x == 0))).map
          (fun (x : Rat) => (x : Real) * nan_to_num (np_log x))).sum) := by
  induction p with
  | nil => rfl
  | cons a t ih =>
    by_cases ha : a = 0
    · subst ha
      simpa using ih
    · rw [List.map_cons, List.sum_cons, ih, List.filter_cons,
        if_pos (by simpa using ha), List.map_cons, List.sum_cons]

/-- C7 counterexample: for a token whose softmax probability of the observed
label is 0 (here `p = [0, 1]`, observed label index 0), `np.log` yields `-inf`
and `np.nan_to_num` substitutes the most negative finite float32, so the
computed `cross_entropy` is `float32_max = 2^128 - 2^104 ≈ 3.4028235e38` — a
huge finite value, not the claimed `0.0`. -/
theorem c7_counterexample :
    cross_entropy [0, 1] 0 = ((float32_max : Rat) : Real)
    ∧ cross_entropy [0, 1] 0 ≠ 0 := by
  have h : cross_entropy [0, 1] 0 = ((float32_max : Rat) : Real) := by
    simp [cross_entropy, np_log, nan_to_num]
  refine ⟨h, ?_⟩
  rw [h]
  have hm : float32_max ≠ 0 := by norm_num [float32_max]
  simpa using hm

/-- C7 (amended): when the softmax probability of the observed label is 0, the
cross_entropy metric is `-nan_to_num(log 0) = -(-float32_max) = float32_max`,
the largest finite float32 — finite and nonzero, not `0.0`; the entropy metric
applies `nan_to_num` elementwise before multiplying by the probabilities, so
every `log(0)` term is multiplied by a zero probability and contributes
exactly 0: entropy equals the finite sum over the nonzero entries alone. -/
theorem c7_log_zero_handling :
    (∀ (p : List Rat) (y : Nat), p.getD y 0 = 0 →
      cross_entropy p y = ((float32_max : Rat) : Real) ∧ cross_entropy p y ≠ 0)
    ∧ (∀ p : List Rat, entropy p
        = -(((p.filter (fun x => !(x == 0))).map
            (fun (x : Rat) => (x : Real) * nan_to_num (np_log x))).sum)) := by
  constructor
  · intro p y hy
    have h : cross_entropy p y = ((float32_max : Rat) : Real) := by
      rw [cross_entropy, hy]
      simp [np_log, nan_to_num]
    refine ⟨h, ?_⟩
    rw [h]
    have hm : float32_max ≠ 0 := by norm_num [float32_max]
    simpa using hm
  · intro p
    rw [entropy, entropy_sum_filter]

/-- C7 witness: the amended statement applied to the concrete probability
vector `[0, 1/2, 1/2]` at observed label 0. -/
theorem c7_witness :
    cross_entropy [0, mkRat 1 2, mkRat 1 2] 0 = ((float32_max : Rat) : Real)
    ∧ cross_entropy [0, mkRat 1 2, mkRat 1 2] 0 ≠ 0 :=
  c7_log_zero_handling.1 [0, mkRat 1 2, mkRat 1 2] 0 (by decide)

/-- C8: for every token, the category test of the remediation pipeline
classifies a token whose observed BIO tag does not end in MASK into exactly
one of the four categories, following the mapping
(observed == predicted, observed == "O"): (T,T) ↦ 1, (F,T) ↦ 2, (T,F) ↦ 3,
(F,F) ↦ 4; a token whose observed tag ends in MASK satisfies no category. -/
theorem c8_category_partition (t : PToken) (tagBio predCol : String) :
    (strEndsWith (getLabel t tagBio) "MASK" = true →
      ∀ cid, tokenInCategory t tagBio predCol cid = false)
    ∧ (strEndsWith (getLabel t tagBio) "MASK" = false →
        (categoryIds.filter (fun cid => tokenInCategory t tagBio predCol cid)).length = 1
        ∧ tokenInCategory t tagBio predCol "1"
            = ((getLabel t tagBio == getLabel t predCol) && (getLabel t tagBio == "O"))
        ∧ tokenInCategory t tagBio predCol "2"
            = (!(getLabel t tagBio == getLabel t predCol) && (getLabel t tagBio == "O"))
        ∧ tokenInCategory t tagBio predCol "3"
            = ((getLabel t tagBio == getLabel t predCol) && !(getLabel t tagBio == "O"))
        ∧ tokenInCategory t tagBio predCol "4"
            = (!(getLabel t tagBio == getLabel t predCol)
                && !(getLabel t tagBio == "O"))) := by
  constructor
  · intro hm cid
    unfold tokenInCategory
    cases hc : category_conditions cid with
    | none => rfl
    | some cond => simp [hm]
  · intro hm
    cases hmatch : (getLabel t tagBio == getLabel t predCol) <;>
      cases ho : (getLabel t tagBio == "O") <;>
        simp [categoryIds, tokenInCategory, category_conditions, hm, hmatch, ho]

/-- C8 witness: the partition applied to a token observed `B-PER` and
predicted `B-PER` (category 3). -/
theorem c8_witness :
    (categoryIds.filter (fun cid =>
      tokenInCategory (setLabel (setLabel baseToken "ner_bio" "B-PER")
          "predicted_bio" "B-PER") "ner_bio" "predicted_bio" cid)).length = 1 :=
  ((c8_category_partition
      (setLabel (setLabel baseToken "ner_bio" "B-PER") "predicted_bio" "B-PER")
      "ner_bio" "predicted_bio").2 (by decide)).1

/-- C4 counterexample: a two-step schedule on a one-token dataset.  Step 1
(mask, category 1) sets the token's working BIO tag to `S-MASK`.  Step 2
(relabel, category 2) reloads the observed column `ner_bio` from its own epoch
log — which the mask never wrote — so the masked token IS classified into
category 2 and is relabelled to `S-PER`, overwriting the mask. -/
theorem c4_counterexample :
    getLabel (((run_remediation_step noSpans c4Step1 c4Dataset).headD
        emptySentence).tokens.headD baseToken) "ner_new_bio" = "S-MASK"
    ∧ tokenInCategory
        (apply_log_token "confidence" "predicted_bio" "ner_bio"
          { predicted := "S-PER", noisy := "O", metricValue := 0 }
          (((run_remediation_step noSpans c4Step1 c4Dataset).headD
            emptySentence).tokens.headD baseToken))
        "ner_bio" "predicted_bio" "2" = true
    ∧ getLabel (((run_schedule noSpans [c4Step1, c4Step2] c4Dataset).headD
        emptySentence).tokens.headD baseToken) "ner_new_bio" = "S-PER" := by
  refine ⟨?_, ?_, ?_⟩ <;> decide

/-- C4 (amended): the ends-in-MASK guard tests the observed BIO column, which
every remediation step reloads from its own epoch log and which mask steps
never write (they write only the new working column).  Hence the category
classification at a step is a function of the step's epoch-log row alone —
unaffected by any earlier mask of the same schedule — and a token is excluded
from classification exactly when its reloaded observed tag itself ends in
MASK. -/
theorem c4_no_mask_permanence :
    (∀ (e : LogEntry) (metric cid : String) (t t1 : PToken),
      tokenInCategory (apply_log_token metric "predicted_bio" "ner_bio" e t)
          "ner_bio" "predicted_bio" cid
        = tokenInCategory (apply_log_token metric "predicted_bio" "ner_bio" e t1)
          "ner_bio" "predicted_bio" cid)
    ∧ (∀ (e : LogEntry) (metric cid : String) (t : PToken),
        strEndsWith e.noisy "MASK" = true →
        tokenInCategory (apply_log_token metric "predicted_bio" "ner_bio" e t)
          "ner_bio" "predicted_bio" cid = false) := by
  have htag : ∀ (e : LogEntry) (metric : String) (t : PToken),
      getLabel (apply_log_token metric "predicted_bio" "ner_bio" e t) "ner_bio"
        = e.noisy := by
    intro e metric t
    simp [apply_log_token, setMetric, setLabel, getLabel]
  have hpred : ∀ (e : LogEntry) (metric : String) (t : PToken),
      getLabel (apply_log_token metric "predicted_bio" "ner_bio" e t) "predicted_bio"
        = e.predicted := by
    intro e metric t
    simp [apply_log_token, setMetric, setLabel, getLabel]
  constructor
  · intro e metric cid t t1
    unfold tokenInCategory
    cases hc : category_conditions cid with
    | none => rfl
    | some cond => rw [htag, htag, hpred, hpred]
  · intro e metric cid t hm
    unfold tokenInCategory
    cases hc : category_conditions cid with
    | none => rfl
    | some cond =>
      rw [htag, hm]
      rfl

/-- C4 witness: a token whose reloaded observed tag is `S-MASK` is excluded
from category 1 classification. -/
theorem c4_witness :
    tokenInCategory
      (apply_log_token "confidence" "predicted_bio" "ner_bio"
        { predicted := "O", noisy := "S-MASK", metricValue := 0 } baseToken)
      "ner_bio" "predicted_bio" "1" = false :=
  c4_no_mask_permanence.2 { predicted := "O", noisy := "S-MASK", metricValue := 0 }
    "confidence" "1" baseToken (by decide)

/-- C5 counterexample: category 4, threshold 1/2, direction left, on the
two-token sentence observed `[B-PER, E-PER]` with predictions
`[S-PER, B-PER]` and confidences `[1/10, 9/10]`.  Token 0 is
threshold-relabelled to `S-PER` (a non-O entity tag); token 1's observed and
predicted tags both end in that relabel's entity type `PER` — exactly the
claim's propagation conditions — yet token 1 is NOT relabelled (its working
tag stays `E-PER`) and the propagation counter stays 0, because token 1
satisfies the category condition and is therefore governed solely by the
threshold test, which it fails. -/
theorem c5_counterexample :
    getLabel (((relabel_category c5Params noSpans c5Dataset).1.headD
        emptySentence).tokens.getD 0 baseToken) "ner_new_bio" = "S-PER"
    ∧ strEndsWith (getLabel c5Token1 "ner_bio") "PER" = true
    ∧ strEndsWith (getLabel c5Token1 "predicted_bio") "PER" = true
    ∧ getLabel (((relabel_category c5Params noSpans c5Dataset).1.headD
        emptySentence).tokens.getD 1 baseToken) "ner_new_bio" = "E-PER"
    ∧ (relabel_category c5Params noSpans c5Dataset).2.2 = 0 := by
  refine ⟨?_, ?_, ?_, ?_, ?_⟩ <;> decide

/-- C5 (amended): in a relabel pass, propagation applies only to tokens that
do NOT satisfy the step's category condition.  The per-token transition is:
(1) a category token passing the threshold test is relabelled to its
prediction, arms the propagation state and bumps the threshold counter;
(2) a category token failing the threshold test is left unchanged AND leaves
the propagation state unchanged (no reset);
(3) a non-category token is relabelled to its prediction and counted in the
propagation counter when the state is armed with a non-O anchor and both its
observed and predicted tags end in the anchor's entity-type suffix, the state
being preserved;
(4) otherwise the non-category token is unchanged and the propagation flag is
reset. -/
theorem c5_propagation_semantics (p : RemParams) (st : RelState) (t : PToken) :
    (tokenInCategory t p.tagBio p.prediction_bio_column p.category_id = true →
      thresholdTest t p.metric p.threshold p.direction = true →
      relabel_token p st t
        = ({ st with
               prev := getLabel t p.prediction_bio_column
               previous_changed := true
               tokens_changed := st.tokens_changed + 1 },
           setLabel t p.newBio (getLabel t p.prediction_bio_column)))
    ∧ (tokenInCategory t p.tagBio p.prediction_bio_column p.category_id = true →
        thresholdTest t p.metric p.threshold p.direction = false →
        relabel_token p st t = (st, t))
    ∧ (tokenInCategory t p.tagBio p.prediction_bio_column p.category_id = false →
        st.previous_changed = true → (st.prev != "O") = true →
        strEndsWith (getLabel t p.tagBio) (tagTypeSuffix st.prev) = true →
        strEndsWith (getLabel t p.prediction_bio_column) (tagTypeSuffix st.prev) = true →
        relabel_token p st t
          = ({ st with tokens_changed_additionally := st.tokens_changed_additionally + 1 },
             setLabel t p.newBio (getLabel t p.prediction_bio_column)))
    ∧ (tokenInCategory t p.tagBio p.prediction_bio_column p.category_id = false →
        (st.previous_changed && (st.prev != "O")
          && strEndsWith (getLabel t p.tagBio) (tagTypeSuffix st.prev)
          && strEndsWith (getLabel t p.prediction_bio_column) (tagTypeSuffix st.prev))
            = false →
        relabel_token p st t = ({ st with previous_changed := false }, t)) := by
  refine ⟨?_, ?_, ?_, ?_⟩
  · intro hc ht
    simp [relabel_token, hc, ht]
  · intro hc ht
    simp [relabel_token, hc, ht]
  · intro hc hpc hprev hobs hpred
    simp [relabel_token, hc, hpc, hprev, hobs, hpred]
  · intro hc hcond
    simp [relabel_token, hc, hcond]

/-- C5 witness: branch (3) of the amended semantics at a concrete armed state
(anchor `S-PER`) and a token outside category 4 whose observed and predicted
tags both end in `PER`. -/
theorem c5_witness :
    relabel_token c5Params c5WitState c5PropToken
      = ({ c5WitState with tokens_changed_additionally := c5WitState.tokens_changed_additionally + 1 },
         setLabel c5PropToken c5Params.newBio
           (getLabel c5PropToken c5Params.prediction_bio_column)) :=
  (c5_propagation_semantics c5Params c5WitState c5PropToken).2.2.1
    (by decide) (by decide) (by decide) (by decide) (by decide)

theorem setLabel_getLabel_ne (t : PToken) (col v c : String) (h : c ≠ col) :
    getLabel (setLabel t col v) c = getLabel t c := by
  simp [getLabel, setLabel, h]

theorem mask_token_preserves (p : RemParams) (t : PToken) (c : String)
    (h : c ≠ p.newBio) :
    getLabel (mask_token p t) c = getLabel t c := by
  unfold mask_token
  split
  · exact setLabel_getLabel_ne t p.newBio "S-MASK" c h
  · rfl

theorem relabel_token_preserves (p : RemParams) (st : RelState) (t : PToken) (c : String)
    (h : c ≠ p.newBio) :
    getLabel (relabel_token p st t).2 c = getLabel t c := by
  unfold relabel_token
  split
  · split
    · exact setLabel_getLabel_ne t p.newBio (getLabel t p.prediction_bio_column) c h
    · rfl
  · split
    · exact setLabel_getLabel_ne t p.newBio (getLabel t p.prediction_bio_column) c h
    · rfl

theorem forall₂_map_of_forall {α β : Type} (R : α → β → Prop) (f : α → β)
    (l : List α) (h : ∀ a ∈ l, R a (f a)) : List.Forall₂ R l (l.map f) := by
  induction l with
  | nil => exact List.Forall₂.nil
  | cons a l ih =>
    rw [List.map_cons]
    exact List.Forall₂.cons (h a (List.mem_cons_self a l))
      (ih (fun b hb => h b (List.mem_cons_of_mem a hb)))

theorem addNewSpans_filter (newCol : String)
    (spanFn : List String → List (List Nat × Rat × String))
    (tags : List String) (q : SpanLabel → Bool)
    (hq : ∀ sl : SpanLabel, sl.column = newCol → q sl = false)
    (acc : List SpanLabel) :
    (addNewSpans newCol spanFn tags acc).filter q = acc.filter q := by
  unfold addNewSpans
  generalize spanFn tags = spans
  induction spans generalizing acc with
  | nil => rfl
  | cons sp spans ih =>
    rw [List.foldl_cons]
    by_cases hsp : (sp.2.2 != "O") = true
    · rw [if_pos hsp, ih, List.filter_append]
      have hz : q ⟨newCol, (sp.1.head?).getD 0, (sp.1.getLast?).getD 0, sp.2.2⟩ = false :=
        hq _ rfl
      simp [hz]
    · rw [if_neg hsp]
      exact ih acc

theorem relabel_tokens_go_preserves (p : RemParams)
    (h1 : p.tag_column ≠ p.newBio) (h2 : p.tagBio ≠ p.newBio) :
    ∀ (ts : List PToken) (st : RelState),
      List.Forall₂ (fun t t1 =>
        getLabel t1 p.tag_column = getLabel t p.tag_column
        ∧ getLabel t1 p.tagBio = getLabel t p.tagBio)
        ts (relabel_tokens_go p st ts).1 := by
  intro ts
  induction ts with
  | nil => intro st; exact List.Forall₂.nil
  | cons t ts ih =>
    intro st
    exact List.Forall₂.cons
      ⟨relabel_token_preserves p st t p.tag_column h1,
       relabel_token_preserves p st t p.tagBio h2⟩
      (ih _)

theorem relabel_go_preserves (p : RemParams)
    (spanFn : List String → List (List Nat × Rat × String))
    (h1 : p.tag_column ≠ p.newBio) (h2 : p.tagBio ≠ p.newBio)
    (h3 : p.new_tag_column ≠ p.tag_column) :
    ∀ (d : List PSentence) (c : Nat × Nat),
      preservesOriginal p d (relabel_go p spanFn c d).1 := by
  intro d
  induction d with
  | nil => intro c; exact List.Forall₂.nil
  | cons s ss ih =>
    intro c
    refine List.Forall₂.cons ⟨?_, ?_⟩ (ih _)
    · exact relabel_tokens_go_preserves p h1 h2 s.tokens _
    · refine addNewSpans_filter p.new_tag_column spanFn _ _ ?_ s.spanLabels
      intro sl hsl
      rw [hsl]
      exact beq_eq_false_iff_ne.mpr h3

theorem copy_fold_filter (tagCol : String) (q : SpanLabel → Bool)
    (hq : ∀ sl : SpanLabel, sl.column = tagCol → q sl = false) :
    ∀ (ls : List SpanLabel) (acc : List SpanLabel),
      ((ls.foldl (fun acc sl => acc ++ [{ sl with column := tagCol }]) acc).filter q)
        = acc.filter q := by
  intro ls
  induction ls with
  | nil => intro acc; rfl
  | cons sl ls ih =>
    intro acc
    rw [List.foldl_cons, ih, List.filter_append]
    have hz : q { sl with column := tagCol } = false := hq _ rfl
    simp [hz]

/-- C9: for every dataset, span-derivation function and remediation
parameters whose new working columns differ from the original columns (as the
pipeline's `ner` / `ner_new` columns do), masking and relabelling write only
the new working columns: every token keeps its values in the original span
column and the original BIO column, and the sentence-level span labels of the
original column are untouched; `copy_new_tag_to_original` is the only
operation writing the original column, and it leaves the tokens and every
other span column unchanged. -/
theorem c9_frame (p : RemParams)
    (spanFn : List String → List (List Nat × Rat × String)) (d : List PSentence)
    (h1 : p.tag_column ≠ p.newBio) (h2 : p.tagBio ≠ p.newBio)
    (h3 : p.new_tag_column ≠ p.tag_column) :
    preservesOriginal p d (mask_category p spanFn d).1
    ∧ preservesOriginal p d (relabel_category p spanFn d).1
    ∧ List.Forall₂ (fun s s1 => s1.tokens = s.tokens
        ∧ s1.spanLabels.filter (fun sl => !(sl.column == p.tag_column))
            = s.spanLabels.filter (fun sl => !(sl.column == p.tag_column)))
        d (copy_new_tag_to_original p.tag_column p.new_tag_column d) := by
  refine ⟨?_, ?_, ?_⟩
  · refine forall₂_map_of_forall _ _ d ?_
    intro s _
    constructor
    · refine forall₂_map_of_forall _ _ s.tokens ?_
      intro t _
      exact ⟨mask_token_preserves p t p.tag_column h1,
             mask_token_preserves p t p.tagBio h2⟩
    · refine addNewSpans_filter p.new_tag_column spanFn _ _ ?_ s.spanLabels
      intro sl hsl
      rw [hsl]
      exact beq_eq_false_iff_ne.mpr h3
  · exact relabel_go_preserves p spanFn h1 h2 h3 d (0, 0)
  · refine forall₂_map_of_forall _ _ d ?_
    intro s _
    refine ⟨rfl, ?_⟩
    refine copy_fold_filter p.tag_column _ ?_ _ s.spanLabels
    intro sl hsl
    rw [hsl]
    simp

/-- C9 witness: the frame theorem applied with the pipeline's concrete column
names on a concrete one-token dataset. -/
theorem c9_witness :
    preservesOriginal maskStepParams c4Dataset
      (mask_category maskStepParams noSpans c4Dataset).1
    ∧ preservesOriginal maskStepParams c4Dataset
      (relabel_category maskStepParams noSpans c4Dataset).1
    ∧ List.Forall₂ (fun s s1 => s1.tokens = s.tokens
        ∧ s1.spanLabels.filter (fun sl => !(sl.column == maskStepParams.tag_column))
            = s.spanLabels.filter (fun sl => !(sl.column == maskStepParams.tag_column)))
        c4Dataset
        (copy_new_tag_to_original maskStepParams.tag_column
          maskStepParams.new_tag_column c4Dataset) :=
  c9_frame maskStepParams noSpans c4Dataset (by decide) (by decide) (by decide)
